import Mathlib

/-!
Shallow embedding of the weather-backend service
(`src/weather_backend/src/api/main.py`).

The service is a stateless proxy: each request handler reads the API key
from the environment, validates the city string, performs one outbound GET
to the OpenWeatherMap current-weather endpoint, and maps the upstream
outcome (transport failure / HTTP status / JSON body) to either a
normalized four-field response or an HTTP error.

Modelling choices:
* JSON values are an inductive `Json`; numbers are rationals (Python parses
  JSON numbers to `int`/`float`; the claims under study involve only exact
  decimal values, where `float` arithmetic is exact projection, so ℚ is a
  faithful carrier).
* Python coercions `float(x)` / `int(x)` / `str(x)` are modelled by
  `pyFloat` / `pyInt` / `pyStr` returning `Option` where Python raises
  `TypeError`/`ValueError` (those exceptions are exactly the ones caught by
  the normalizer's `except` clause).
* The upstream world is an `UpstreamOutcome` parameter: transport error, or
  a response with a status code and an optional parsed JSON body (`none`
  models a body that fails JSON parsing).
* Handlers return the response outcome together with the list of upstream
  requests issued (so "no upstream call is made" / "exactly one call" are
  statable).
* `FastAPI`/`pydantic` plumbing is out of scope per the spec; handlers are
  modelled at the function level, on the string the framework hands them.
  The one pydantic fact that matters to the normalizer is that
  `WeatherResponse(city=...)` validates `city : str` *outside* the
  normalizer's `try` block, so a non-string `name` value escapes as a
  response-validation error rather than the 502 shape error; this is the
  `validationError` constructor.
-/

namespace WeatherApp

/-- JSON values as produced by Python's JSON parsing (`resp.json()`).
Numbers are carried as rationals; object fields keep insertion order, with
lookup returning the first binding (Python dicts cannot hold duplicate
keys, so any list with distinct keys is a faithful image). -/
inductive Json where
  | null : Json
  | bool (b : Bool) : Json
  | num (q : ℚ) : Json
  | str (s : String) : Json
  | arr (elems : List Json) : Json
  | obj (fields : List (String × Json)) : Json

/-- Python `payload[key]` on a parsed-JSON value: succeeds only on an
object that has the key (`KeyError` otherwise; `TypeError` on non-dicts —
both are caught by the normalizer, so `none` models either). -/
def jGet : Json → String → Option Json
  | .obj fields, key => fields.lookup key
  | _, _ => none

/-- Python `payload[i]` with an integer index on a parsed-JSON value:
succeeds only on a list that is long enough (`IndexError`/`TypeError`
otherwise, both caught by the normalizer). -/
def jIdx : Json → Nat → Option Json
  | .arr elems, i => elems.get? i
  | _, _ => none

/-- Python `s.strip()`: drop leading and trailing whitespace characters.
(`Char.isWhitespace` covers space, tab, CR, LF; Python's `str.isspace`
additionally strips `\v`/`\f`, which no claim involves.) -/
def pyStrip (s : String) : String :=
  String.mk
    (((s.data.dropWhile Char.isWhitespace).reverse.dropWhile Char.isWhitespace).reverse)

/-- Value of a nonempty all-digit character list, `none` otherwise. -/
def digitsVal : List Char → Option Nat
  | [] => none
  | cs =>
      if cs.all Char.isDigit then
        some (cs.foldl (fun acc c => acc * 10 + (c.toNat - 48)) 0)
      else none

/-- Python `int(s)` on a string: optional sign then decimal digits, with
surrounding whitespace ignored.  (Python also accepts `_` digit
separators; no claim involves them.) -/
def parseIntStr (s : String) : Option Int :=
  match (pyStrip s).toList with
  | '+' :: rest => (digitsVal rest).map Int.ofNat
  | '-' :: rest => (digitsVal rest).map (fun n => -(n : Int))
  | cs => (digitsVal cs).map Int.ofNat

/-- Digits before/after an optional decimal point: at least one digit
overall, as Python `float` requires (`"1."`, `".5"` ok, `"."` not). -/
def parseMantissa (cs : List Char) : Option (ℚ × List Char) :=
  let intPart := cs.takeWhile Char.isDigit
  let rest := cs.dropWhile Char.isDigit
  match rest with
  | '.' :: rest2 =>
      let fracPart := rest2.takeWhile Char.isDigit
      let rest3 := rest2.dropWhile Char.isDigit
      if intPart.isEmpty && fracPart.isEmpty then none
      else
        let iv : ℚ := (intPart.foldl (fun acc c => acc * 10 + (c.toNat - 48)) 0 : Nat)
        let fv : ℚ := (fracPart.foldl (fun acc c => acc * 10 + (c.toNat - 48)) 0 : Nat)
        some (iv + fv / (10 : ℚ) ^ fracPart.length, rest3)
  | _ =>
      if intPart.isEmpty then none
      else some ((intPart.foldl (fun acc c => acc * 10 + (c.toNat - 48)) 0 : Nat), rest)

/-- Optional exponent suffix (`e`/`E`, optional sign, digits); `some 0` on
the empty remainder, `none` on trailing garbage. -/
def parseExponent : List Char → Option Int
  | [] => some 0
  | 'e' :: rest => parseSignedDigits rest
  | 'E' :: rest => parseSignedDigits rest
  | _ => none
where
  parseSignedDigits : List Char → Option Int
    | '+' :: ds => (digitsVal ds).map Int.ofNat
    | '-' :: ds => (digitsVal ds).map (fun n => -(n : Int))
    | ds => (digitsVal ds).map Int.ofNat

/-- Python `float(s)` on a string: optional sign, decimal mantissa,
optional exponent, surrounding whitespace ignored.  (Python additionally
accepts `inf`/`nan` spellings and `_` separators; no claim involves
them.) -/
def parseFloatStr (s : String) : Option ℚ :=
  match (pyStrip s).toList with
  | '+' :: rest => parseUnsigned rest
  | '-' :: rest => (parseUnsigned rest).map Neg.neg
  | cs => parseUnsigned cs
where
  parseUnsigned (cs : List Char) : Option ℚ :=
    match parseMantissa cs with
    | none => none
    | some (m, rest) => (parseExponent rest).map (fun e => m * (10 : ℚ) ^ e)

/-- Python's `int()` truncation toward zero on an exact number. -/
def ratTrunc (q : ℚ) : Int :=
  if 0 ≤ q then ⌊q⌋ else ⌈q⌉

/-- Python `float(x)`: numbers pass through exactly, booleans become 0/1,
numeric strings are parsed; everything else raises (`TypeError`), which
the normalizer catches — modelled as `none`. -/
def pyFloat : Json → Option ℚ
  | .num q => some q
  | .bool b => some (if b then 1 else 0)
  | .str s => parseFloatStr s
  | _ => none

/-- Python `int(x)`: floats truncate toward zero, ints and booleans map to
their value, integer-literal strings parse (`int("81.9")` raises
`ValueError`); everything else raises — modelled as `none`. -/
def pyInt : Json → Option Int
  | .num q => some (ratTrunc q)
  | .bool b => some (if b then 1 else 0)
  | .str s => parseIntStr s
  | _ => none

/-- Python `str(x)`.  Faithful where the theorems use it: the identity on
strings, and total (Python `str()` never raises).  The renderings of
numbers and containers approximate Python's `repr` and are not relied on
by any theorem (every payload a theorem evaluates has a string
`description`). -/
def pyStr : Json → String
  | .str s => s
  | .bool b => if b then "True" else "False"
  | .null => "None"
  | .num q => toString q
  | .arr _ => "[...]"
  | .obj _ => "..."

/-- Normalized weather response (`WeatherResponse` model): `city: str`,
`temperature: float`, `humidity: int`, `description: str`. -/
structure WeatherResponse where
  city : String
  temperature : ℚ
  humidity : Int
  description : String
deriving DecidableEq

/-- Outcome of `_normalize_openweather_payload`: a normalized response, the
502 "unexpected format" `HTTPException` raised when field extraction fails,
or a response-model validation failure that the normalizer's `except`
clause does **not** catch (a non-string `name` reaching
`WeatherResponse(city=...)`). -/
inductive NormResult where
  | ok (w : WeatherResponse) : NormResult
  | shapeError : NormResult
  | validationError : NormResult
deriving DecidableEq

/-- `payload["name"]` — no coercion is applied at extraction time. -/
def nameField (p : Json) : Option Json := jGet p "name"

/-- `float(payload["main"]["temp"])`. -/
def tempField (p : Json) : Option ℚ :=
  ((jGet p "main").bind fun m => jGet m "temp").bind pyFloat

/-- `int(payload["main"]["humidity"])`. -/
def humidityField (p : Json) : Option Int :=
  ((jGet p "main").bind fun m => jGet m "humidity").bind pyInt

/-- `str(payload["weather"][0]["description"])`. -/
def descriptionField (p : Json) : Option String :=
  (((jGet p "weather").bind fun w => jIdx w 0).bind fun e =>
    jGet e "description").map pyStr

/-- Whether a JSON value is a string (what pydantic's `city : str` field
accepts). -/
def isStr : Json → Bool
  | .str _ => true
  | _ => false

/-- `_normalize_openweather_payload`: extract the four fields inside the
`try` block (any `KeyError`/`IndexError`/`TypeError`/`ValueError` →
502 shape error), then build `WeatherResponse`, whose `city : str`
validation runs outside the `try` block. -/
def normalize_openweather_payload (p : Json) : NormResult :=
  match nameField p, tempField p, humidityField p, descriptionField p with
  | some city, some temperature, some humidity, some description =>
      match city with
      | .str s => .ok ⟨s, temperature, humidity, description⟩
      | _ => .validationError
  | _, _, _, _ => .shapeError

/-- `OPENWEATHER_CURRENT_URL`. -/
def OPENWEATHER_CURRENT_URL : String :=
  "https://api.openweathermap.org/data/2.5/weather"

/-- One outbound GET with its query parameters
(`params = {"q": city, "appid": api_key, "units": "metric"}`). -/
structure UpstreamRequest where
  url : String
  q : String
  appid : String
  units : String
deriving DecidableEq

/-- What the upstream world does for the single outbound call: the
transport layer fails (`httpx.RequestError`, timeouts included), or a
response arrives with a status code and a body that either parses as JSON
(`some payload`) or does not (`none`, i.e. `resp.json()` raises
`ValueError`). -/
inductive UpstreamOutcome where
  | transportError : UpstreamOutcome
  | response (statusCode : Nat) (body : Option Json) : UpstreamOutcome

/-- Observable outcome of a handler: a 200 with the normalized body, an
`HTTPException` with status code and detail message, or an uncaught
response-validation error (surfacing as a generic server error, not an
`HTTPException`). -/
inductive FetchResult where
  | ok (w : WeatherResponse) : FetchResult
  | httpError (statusCode : Nat) (detail : String) : FetchResult
  | validationError : FetchResult
deriving DecidableEq

/-- Status code of an `HTTPException` outcome, if the outcome is one. -/
def statusOf : FetchResult → Option Nat
  | .httpError s _ => some s
  | _ => none

/-- `_fetch_current_weather`: build the params, perform the single GET
(no retry), then map transport failure → 502, status 404 → 404,
other status ≥ 400 → 502 carrying the status, unparseable body → 502,
and otherwise normalize the payload.  The second component records the
upstream requests issued. -/
def fetch_current_weather (city apiKey : String) (outcome : UpstreamOutcome) :
    FetchResult × List UpstreamRequest :=
  let req : UpstreamRequest :=
    { url := OPENWEATHER_CURRENT_URL, q := city, appid := apiKey, units := "metric" }
  match outcome with
  | .transportError => (.httpError 502 "Failed to reach OpenWeatherMap.", [req])
  | .response statusCode body =>
      if statusCode = 404 then
        (.httpError 404 "City not found.", [req])
      else if 400 ≤ statusCode then
        (.httpError 502
          ("OpenWeatherMap returned an error (status " ++ toString statusCode ++ ")."),
         [req])
      else
        match body with
        | none => (.httpError 502 "OpenWeatherMap returned invalid JSON.", [req])
        | some payload =>
            match normalize_openweather_payload payload with
            | .ok w => (.ok w, [req])
            | .shapeError =>
                (.httpError 502
                  "Upstream response format from OpenWeatherMap was unexpected.",
                 [req])
            | .validationError => (.validationError, [req])

/-- Truthiness of `os.getenv("OPENWEATHER_API_KEY")`: Python's
`if not api_key` fires on `None` (unset) and on the empty string. -/
def keyConfigured : Option String → Bool
  | none => false
  | some k => !(k == "")

/-- `get_weather` (GET /weather handler): API-key guard first, then the
blank-city guard (`not city or not city.strip()`), then delegate with the
stripped city.  The empty request list on the guard branches records that no
upstream call is made there. -/
def get_weather (apiKeyEnv : Option String) (city : String)
    (outcome : UpstreamOutcome) : FetchResult × List UpstreamRequest :=
  if !(keyConfigured apiKeyEnv) then
    (.httpError 500 "OPENWEATHER_API_KEY is not configured on the server.", [])
  else if city == "" || pyStrip city == "" then
    (.httpError 400 "Missing required parameter: city.", [])
  else
    fetch_current_weather (pyStrip city) (apiKeyEnv.getD "") outcome

/-- `post_weather` (POST /weather handler): API-key guard first, then trim
the body's city (`(payload.city or "").strip()`; `or ""` is the identity
on strings since it only replaces `""` by `""`), reject if blank, then
delegate. -/
def post_weather (apiKeyEnv : Option String) (bodyCity : String)
    (outcome : UpstreamOutcome) : FetchResult × List UpstreamRequest :=
  if !(keyConfigured apiKeyEnv) then
    (.httpError 500 "OPENWEATHER_API_KEY is not configured on the server.", [])
  else
    let city := pyStrip bodyCity
    if city == "" then
      (.httpError 400 "Missing required field: city.", [])
    else
      fetch_current_weather city (apiKeyEnv.getD "") outcome

/-- `health_check` body: `{"message": "Healthy"}` as key/value pairs. -/
def health_check : List (String × String) := [("message", "Healthy")]

/-- FastAPI's default success status for a plain handler return. -/
def health_status : Nat := 200

/-- The route path the health handler is registered on (`@app.get("/")`). -/
def health_route_path : String := "/"

/-- All GET route paths registered on the app. -/
def registered_get_paths : List String := ["/", "/weather"]

/-- All POST route paths registered on the app. -/
def registered_post_paths : List String := ["/weather"]

/-- `sub` occurs inside `s`. -/
def strIncludes (s sub : String) : Prop := ∃ a b, s = a ++ sub ++ b

/-! ## Concrete payloads used by witnesses and counterexamples -/

/-- The spec's concrete upstream payload:
`{"name":"London","main":{"temp":12.34,"humidity":81},"weather":[{"description":"light rain"}]}`.
(Python's JSON parser yields the int 81 for the humidity literal; its image
in ℚ is the integer cast.) -/
def londonPayload : Json :=
  .obj [("name", .str "London"),
        ("main", .obj [("temp", .num (12.34 : ℚ)),
                       ("humidity", .num (((81 : Int) : ℚ)))]),
        ("weather", .arr [.obj [("description", .str "light rain")]])]

/-- A payload whose `name` is the number 7 and whose other three fields are
well-formed. -/
def badNamePayload : Json :=
  .obj [("name", .num 7),
        ("main", .obj [("temp", .num 1), ("humidity", .num 2)]),
        ("weather", .arr [.obj [("description", .str "x")]])]

/-- A payload with an empty `weather` list (so `weather[0].description` is
missing), the rest well-formed. -/
def missingDescriptionPayload : Json :=
  .obj [("name", .str "X"),
        ("main", .obj [("temp", .num 1), ("humidity", .num 2)]),
        ("weather", .arr [])]

/-- A payload whose humidity is the *string* `"81.9"` (fails `int()`), the
rest well-formed. -/
def humidityStringPayload : Json :=
  .obj [("name", .str "X"),
        ("main", .obj [("temp", .num 1), ("humidity", .str "81.9")]),
        ("weather", .arr [.obj [("description", .str "x")]])]

/-! ## Helper lemmas -/

/-- Truncation toward zero is the identity on integers. -/
theorem ratTrunc_intCast (h : Int) : ratTrunc ((h : ℚ)) = h := by
  unfold ratTrunc
  by_cases hh : (0 : ℚ) ≤ (h : ℚ)
  · simp [hh, Int.floor_intCast]
  · simp [hh, Int.ceil_intCast]

/-- `_fetch_current_weather` issues exactly one upstream request, with the
query parameters built from its arguments, whatever the upstream outcome. -/
theorem fetch_current_weather_snd (city apiKey : String) (o : UpstreamOutcome) :
    (fetch_current_weather city apiKey o).snd
      = [⟨OPENWEATHER_CURRENT_URL, city, apiKey, "metric"⟩] := by
  cases o with
  | transportError => rfl
  | response s b =>
      simp only [fetch_current_weather]
      split
      · rfl
      · split
        · rfl
        · cases b with
          | none => rfl
          | some payload =>
              cases hn : normalize_openweather_payload payload <;> simp [hn]

/-- An unset or empty key fails the handlers' truthiness guard. -/
theorem keyConfigured_some (k : String) (hk : k ≠ "") :
    keyConfigured (some k) = true := by
  simp [keyConfigured, hk]

/-! ## Claims -/

/-- C4: for every request to GET /weather or POST /weather, if
`OPENWEATHER_API_KEY` is unset or empty, the handler returns HTTP 500
regardless of the city input, with a message containing the configuration
key name, and no upstream call is made. -/
theorem missing_api_key_500
    (apiKeyEnv : Option String) (city : String) (outcome : UpstreamOutcome)
    (hkey : keyConfigured apiKeyEnv = false) :
    get_weather apiKeyEnv city outcome
        = (.httpError 500 "OPENWEATHER_API_KEY is not configured on the server.", [])
    ∧ post_weather apiKeyEnv city outcome
        = (.httpError 500 "OPENWEATHER_API_KEY is not configured on the server.", [])
    ∧ strIncludes "OPENWEATHER_API_KEY is not configured on the server."
        "OPENWEATHER_API_KEY" := by
  refine ⟨?_, ?_, "", " is not configured on the server.", rfl⟩
  · simp [get_weather, hkey]
  · simp [post_weather, hkey]

/-- Witness for C4: empty key, valid city. -/
theorem missing_api_key_500_witness :
    get_weather (some "") "London" .transportError
        = (.httpError 500 "OPENWEATHER_API_KEY is not configured on the server.", [])
    ∧ post_weather (some "") "London" .transportError
        = (.httpError 500 "OPENWEATHER_API_KEY is not configured on the server.", []) :=
  ⟨(missing_api_key_500 (some "") "London" .transportError rfl).1,
   (missing_api_key_500 (some "") "London" .transportError rfl).2.1⟩

/-- C7: a GET /weather request whose city is empty or blank after trimming
is rejected with HTTP 400 and a message identifying the city field (the
API-key guard runs first per the handler's flow, so a configured key is
assumed). -/
theorem blank_city_get_rejected
    (apiKeyEnv : Option String) (city : String) (outcome : UpstreamOutcome)
    (hkey : keyConfigured apiKeyEnv = true)
    (hblank : pyStrip city = "") :
    (get_weather apiKeyEnv city outcome).fst
      = .httpError 400 "Missing required parameter: city."
    ∧ strIncludes "Missing required parameter: city." "city" := by
  refine ⟨?_, "Missing required parameter: ", ".", rfl⟩
  simp [get_weather, hkey, hblank]

/-- Witness for C7: whitespace-only city with a configured key. -/
theorem blank_city_get_rejected_witness :
    (get_weather (some "k") "   " .transportError).fst
      = .httpError 400 "Missing required parameter: city." :=
  (blank_city_get_rejected (some "k") "   " .transportError rfl rfl).1

/-- Counterexample to C3 as stated: a whitespace-only city POSTed while the
API key is *unset* yields 500 (the key guard runs first), not the claimed
400. -/
theorem post_blank_city_counterexample :
    (post_weather none " " (.response 200 none)).fst
        = .httpError 500 "OPENWEATHER_API_KEY is not configured on the server."
    ∧ statusOf (post_weather none " " (.response 200 none)).fst ≠ some 400 := by
  exact ⟨rfl, by decide⟩

/-- C3 (amended): a POST /weather request whose city is empty or
whitespace-only is rejected with HTTP 400 and a message containing "city",
provided the API key is configured (with the key unset or empty the key
guard fires first and the handler returns 500 instead). -/
theorem blank_city_post_rejected
    (apiKeyEnv : Option String) (bodyCity : String) (outcome : UpstreamOutcome)
    (hkey : keyConfigured apiKeyEnv = true)
    (hblank : pyStrip bodyCity = "") :
    (post_weather apiKeyEnv bodyCity outcome).fst
      = .httpError 400 "Missing required field: city."
    ∧ strIncludes "Missing required field: city." "city" := by
  refine ⟨?_, "Missing required field: ", ".", rfl⟩
  simp [post_weather, hkey, hblank]

/-- Witness for C3 (amended): whitespace-only city, configured key. -/
theorem blank_city_post_rejected_witness :
    (post_weather (some "k") " " (.response 200 none)).fst
      = .httpError 400 "Missing required field: city." :=
  (blank_city_post_rejected (some "k") " " (.response 200 none) rfl rfl).1

/-- Counterexample to C9 as stated: no route is registered at the path
`/health` (the health handler is registered at `/`), so a GET to
`/health` cannot return the claimed 200 body. -/
theorem health_path_counterexample :
    ¬ ("/health" ∈ registered_get_paths) ∧ ¬ ("/health" ∈ registered_post_paths) := by
  exact ⟨by decide, by decide⟩

/-- C9 (amended): the health endpoint is registered at `/` and returns
HTTP 200 with body `{"message":"Healthy"}`. -/
theorem health_root_endpoint :
    health_route_path = "/" ∧ health_route_path ∈ registered_get_paths
    ∧ health_status = 200 ∧ health_check = [("message", "Healthy")] := by
  exact ⟨rfl, by decide, rfl, rfl⟩

/-- C1: with a configured API key and a non-blank city, a well-formed
upstream payload (string `name`, numeric `main.temp`, integer
`main.humidity`, string `weather[0].description`) yields a 200 response
whose four fields are exactly the payload's corresponding fields — a pure
projection — for both the GET and the POST handler. -/
theorem wellformed_payload_projection
    (apiKey city : String) (p : Json) (c : String) (t : ℚ) (h : Int) (d : String)
    (hkey : apiKey ≠ "")
    (hcity : pyStrip city ≠ "")
    (hname : jGet p "name" = some (.str c))
    (htemp : ((jGet p "main").bind fun m => jGet m "temp") = some (.num t))
    (hhum : ((jGet p "main").bind fun m => jGet m "humidity")
              = some (.num ((h : ℚ))))
    (hdesc : (((jGet p "weather").bind fun w => jIdx w 0).bind fun e =>
                jGet e "description") = some (.str d)) :
    (get_weather (some apiKey) city (.response 200 (some p))).fst
        = .ok ⟨c, t, h, d⟩
    ∧ (post_weather (some apiKey) city (.response 200 (some p))).fst
        = .ok ⟨c, t, h, d⟩ := by
  have hnorm : normalize_openweather_payload p = .ok ⟨c, t, h, d⟩ := by
    unfold normalize_openweather_payload nameField tempField humidityField
      descriptionField
    rw [hname, htemp, hhum, hdesc]
    simp [pyFloat, pyInt, pyStr, ratTrunc_intCast]
  have hfetch : ∀ cc kk : String,
      (fetch_current_weather cc kk (.response 200 (some p))).fst
        = .ok ⟨c, t, h, d⟩ := by
    intro cc kk
    simp [fetch_current_weather, hnorm]
  have hc0 : city ≠ "" := by
    intro e; exact hcity (by rw [e]; rfl)
  constructor
  · simp [get_weather, keyConfigured, hkey, hc0, hcity, hfetch]
  · simp [post_weather, keyConfigured, hkey, hcity, hfetch]

/-- Witness for C1: the spec's concrete London scenario. -/
theorem wellformed_payload_projection_witness :
    (get_weather (some "test-key") "London" (.response 200 (some londonPayload))).fst
        = .ok ⟨"London", (12.34 : ℚ), 81, "light rain"⟩
    ∧ (post_weather (some "test-key") "London" (.response 200 (some londonPayload))).fst
        = .ok ⟨"London", (12.34 : ℚ), 81, "light rain"⟩ :=
  wellformed_payload_projection "test-key" "London" londonPayload
    "London" (12.34 : ℚ) 81 "light rain"
    (by decide) (by decide) rfl rfl rfl rfl

/-- C2: an upstream response with status ≥ 400 maps to 404 with the fixed
message "City not found." when the status is 404, and otherwise to 502
with a message that includes the observed status; in either case the body
is never consulted (no such response reaches the normalizer). -/
theorem upstream_error_status_mapping
    (city apiKey : String) (s : Nat) (body : Option Json) (hs : 400 ≤ s) :
    (s = 404 →
      (fetch_current_weather city apiKey (.response s body)).fst
        = .httpError 404 "City not found.")
    ∧ (s ≠ 404 →
      (fetch_current_weather city apiKey (.response s body)).fst
        = .httpError 502
            ("OpenWeatherMap returned an error (status " ++ toString s ++ ").")
      ∧ strIncludes
          ("OpenWeatherMap returned an error (status " ++ toString s ++ ").")
          (toString s))
    ∧ fetch_current_weather city apiKey (.response s body)
        = fetch_current_weather city apiKey (.response s none) := by
  refine ⟨fun h404 => ?_, fun h404 => ⟨?_, "OpenWeatherMap returned an error (status ", ").", rfl⟩, ?_⟩
  · simp [fetch_current_weather, h404]
  · simp [fetch_current_weather, h404, hs]
  · by_cases h404 : s = 404
    · simp [fetch_current_weather, h404]
    · simp [fetch_current_weather, h404, hs]

/-- Witness for C2: upstream 500 with some parseable body. -/
theorem upstream_error_status_mapping_witness :
    (fetch_current_weather "London" "k" (.response 500 (some (Json.str "x")))).fst
      = .httpError 502
          ("OpenWeatherMap returned an error (status " ++ toString 500 ++ ").")
    ∧ fetch_current_weather "London" "k" (.response 500 (some (Json.str "x")))
      = fetch_current_weather "London" "k" (.response 500 none) :=
  ⟨((upstream_error_status_mapping "London" "k" 500 (some (Json.str "x"))
      (by decide)).2.1 (by decide)).1,
   (upstream_error_status_mapping "London" "k" 500 (some (Json.str "x"))
      (by decide)).2.2⟩

/-- Counterexample to C5 as stated: a payload whose `name` is the number 7
(other fields well-formed) is *not* mapped to the 502 shape error — the
extraction succeeds and the non-string city instead fails the response
model's validation, outside the normalizer's `except` clause. -/
theorem nonstring_name_counterexample :
    normalize_openweather_payload badNamePayload = .validationError
    ∧ normalize_openweather_payload badNamePayload ≠ .shapeError := by
  exact ⟨by decide, by decide⟩

/-- C5 (amended): a payload for which extraction of any of the four fields
fails (missing key, `weather` empty or not a list, failed numeric
coercion) is classified as the 502 shape error; but a payload whose four
extractions succeed with a non-string `name` escapes the shape check and
fails response validation instead (not a 502). -/
theorem shape_invalid_classification (p : Json) :
    ((nameField p = none ∨ tempField p = none ∨ humidityField p = none
        ∨ descriptionField p = none) →
      normalize_openweather_payload p = .shapeError)
    ∧ (∀ c t h d, nameField p = some c → isStr c = false →
        tempField p = some t → humidityField p = some h →
        descriptionField p = some d →
        normalize_openweather_payload p = .validationError) := by
  constructor
  · intro hfail
    cases hn : nameField p <;> cases ht : tempField p <;>
      cases hh : humidityField p <;> cases hd : descriptionField p <;>
      simp_all [normalize_openweather_payload]
  · intro c t h d hn hns ht hh hd
    unfold normalize_openweather_payload
    rw [hn, ht, hh, hd]
    cases c <;> simp_all [isStr]

/-- Witness for C5 (amended): an empty `weather` list is a shape error;
a numeric `name` with the other fields fine is a validation escape. -/
theorem shape_invalid_classification_witness :
    normalize_openweather_payload missingDescriptionPayload = .shapeError
    ∧ normalize_openweather_payload badNamePayload = .validationError :=
  ⟨(shape_invalid_classification missingDescriptionPayload).1
      (.inr (.inr (.inr rfl))),
   (shape_invalid_classification badNamePayload).2
      (Json.num 7) 1 (ratTrunc 2) "x" rfl rfl rfl rfl rfl⟩

/-- C6: a transport-level failure maps to 502 with a message naming the
upstream provider, and (when no error status preempts it) an unparseable
body maps to 502 with a message indicating invalid upstream JSON; neither
produces a normalized result. -/
theorem upstream_unreachable_and_malformed
    (city apiKey : String) (s : Nat) (hs : s < 400) :
    ((fetch_current_weather city apiKey .transportError).fst
        = .httpError 502 "Failed to reach OpenWeatherMap."
      ∧ strIncludes "Failed to reach OpenWeatherMap." "OpenWeatherMap"
      ∧ ∀ w, (fetch_current_weather city apiKey .transportError).fst ≠ .ok w)
    ∧ ((fetch_current_weather city apiKey (.response s none)).fst
        = .httpError 502 "OpenWeatherMap returned invalid JSON."
      ∧ strIncludes "OpenWeatherMap returned invalid JSON." "invalid JSON"
      ∧ ∀ w, (fetch_current_weather city apiKey (.response s none)).fst ≠ .ok w) := by
  have h404 : s ≠ 404 := by omega
  have h400 : ¬ 400 ≤ s := by omega
  have hmal : (fetch_current_weather city apiKey (.response s none)).fst
      = .httpError 502 "OpenWeatherMap returned invalid JSON." := by
    simp [fetch_current_weather, h404, h400]
  refine ⟨⟨rfl, ⟨"Failed to reach ", ".", rfl⟩, fun w => by simp [fetch_current_weather]⟩,
         hmal, ⟨"OpenWeatherMap returned ", ".", rfl⟩, fun w => by simp [hmal]⟩

/-- Witness for C6: a 200 response with an unparseable body. -/
theorem upstream_unreachable_and_malformed_witness :
    (fetch_current_weather "London" "k" .transportError).fst
        = .httpError 502 "Failed to reach OpenWeatherMap."
    ∧ (fetch_current_weather "London" "k" (.response 200 none)).fst
        = .httpError 502 "OpenWeatherMap returned invalid JSON." :=
  ⟨(upstream_unreachable_and_malformed "London" "k" 200 (by decide)).1.1,
   (upstream_unreachable_and_malformed "London" "k" 200 (by decide)).2.1⟩

/-- C8: a request that passes the key and blank-city guards issues exactly
one upstream GET (no retries), whose query parameters are `q` = the
trimmed city, `appid` = the configured key, `units` = "metric" — for both
handlers and whatever the upstream outcome. -/
theorem single_upstream_request_params
    (k city : String) (outcome : UpstreamOutcome)
    (hk : k ≠ "")
    (hcity : pyStrip city ≠ "") :
    (get_weather (some k) city outcome).snd
        = [⟨OPENWEATHER_CURRENT_URL, pyStrip city, k, "metric"⟩]
    ∧ (post_weather (some k) city outcome).snd
        = [⟨OPENWEATHER_CURRENT_URL, pyStrip city, k, "metric"⟩] := by
  have hc0 : city ≠ "" := by
    intro e; exact hcity (by rw [e]; rfl)
  constructor
  · simp [get_weather, keyConfigured, hk, hc0, hcity, fetch_current_weather_snd]
  · simp [post_weather, keyConfigured, hk, hcity, fetch_current_weather_snd]

/-- Witness for C8: city with surrounding whitespace; transport error
outcome (the request is recorded even then). -/
theorem single_upstream_request_params_witness :
    (get_weather (some "test-key") " London " .transportError).snd
        = [⟨OPENWEATHER_CURRENT_URL, pyStrip " London ", "test-key", "metric"⟩]
    ∧ (post_weather (some "test-key") " London " .transportError).snd
        = [⟨OPENWEATHER_CURRENT_URL, pyStrip " London ", "test-key", "metric"⟩] :=
  single_upstream_request_params "test-key" " London " .transportError
    (by decide) (by decide)

/-- C10: a well-formed payload whose `main.humidity` is a non-integer
number is not a shape error — normalization succeeds with the humidity
truncated toward zero (floor for non-negative, ceiling for negative
values); the same value as a numeric *string* fails `int()` coercion and
is a 502 shape error. -/
theorem humidity_truncation
    (p : Json) (c : String) (t q : ℚ) (d : String)
    (hname : jGet p "name" = some (.str c))
    (htemp : ((jGet p "main").bind fun m => jGet m "temp") = some (.num t))
    (hhum : ((jGet p "main").bind fun m => jGet m "humidity") = some (.num q))
    (hq : q.den ≠ 1)
    (hdesc : (((jGet p "weather").bind fun w => jIdx w 0).bind fun e =>
                jGet e "description") = some (.str d)) :
    normalize_openweather_payload p = .ok ⟨c, t, ratTrunc q, d⟩
    ∧ (0 ≤ q → ratTrunc q = ⌊q⌋)
    ∧ (q < 0 → ratTrunc q = ⌈q⌉)
    ∧ normalize_openweather_payload humidityStringPayload = .shapeError := by
  refine ⟨?_, fun hpos => by simp [ratTrunc, hpos], fun hneg => by simp [ratTrunc, not_le.mpr hneg], by decide⟩
  unfold normalize_openweather_payload nameField tempField humidityField
    descriptionField
  rw [hname, htemp, hhum, hdesc]
  simp [pyFloat, pyInt, pyStr]

/-- Witness for C10: humidity 81.9 truncates to 81. -/
theorem humidity_truncation_witness :
    normalize_openweather_payload
        (.obj [("name", .str "X"),
               ("main", .obj [("temp", .num 1), ("humidity", .num (81.9 : ℚ))]),
               ("weather", .arr [.obj [("description", .str "x")]])])
      = .ok ⟨"X", 1, ratTrunc (81.9 : ℚ), "x"⟩
    ∧ ratTrunc (81.9 : ℚ) = 81
    ∧ normalize_openweather_payload humidityStringPayload = .shapeError :=
  ⟨(humidity_truncation
      (.obj [("name", .str "X"),
             ("main", .obj [("temp", .num 1), ("humidity", .num (81.9 : ℚ))]),
             ("weather", .arr [.obj [("description", .str "x")]])])
      "X" 1 (81.9 : ℚ) "x" rfl rfl rfl (by norm_num [Rat.den]) rfl).1,
   by norm_num [ratTrunc],
   (humidity_truncation
      (.obj [("name", .str "X"),
             ("main", .obj [("temp", .num 1), ("humidity", .num (81.9 : ℚ))]),
             ("weather", .arr [.obj [("description", .str "x")]])])
      "X" 1 (81.9 : ℚ) "x" rfl rfl rfl (by norm_num [Rat.den]) rfl).2.2.2⟩

end WeatherApp
